import Mathlib

/-!
A shallow embedding of `src/TeensyController/TeensyController.ino`, the single
source file of the Teensy pulsed-laser driver, together with theorems checking
the natural-language specification against it.

Modelling conventions:
* the sketch's `float` arithmetic is idealised as exact arithmetic in a linear
  ordered field, instantiated at `ℚ` where the claims are decidable and at `ℝ`
  where the exponential PRR calibration curve is involved;
* `analogRead` samples are explicit `ℕ` arguments (the 12-bit converter yields
  values in `[0, 4095]`, modelled as a hypothesis where a claim needs it);
* the two `static float` locals of `isUpdateNeeded` become an explicit
  `FilterState` threaded through the step function;
* the digital fault/selector pins become an explicit `FaultState` argument;
* writes to the laser pin (`analogWriteFrequency`, `analogWrite`) and the text
  sent to the serial port and the LCD are returned as data.
-/

namespace TeensyController

/-- The defensive clamp written inside `GetPRRvalue` and `GetPwrLevel`:
`if (DialValue > 4095) DialValue = 4095;`. -/
def clamp12 (v : ℕ) : ℕ := if 4095 < v then 4095 else v

/-- The three digital fault/selector inputs read by `SendSerialUpdate` and
`UpdateLCD`: the temperature cutoff pin, the e-stop pin and the trigger-source
selector pin (HIGH = external). -/
structure FaultState where
  overTemp : Bool
  estop : Bool
  trigExternal : Bool

/-- The persistent state of `isUpdateNeeded`: its two `static float` locals
`integratedError` and `currentPRR` (the last PRR actually applied to the
hardware), both initialised to `0` in the source. -/
structure FilterState (α : Type) where
  integratedError : α
  currentPRR : α

/-- `GetPRRvalue`: the exponential calibration curve `Y = A^(B*X) + C` with
`A = 584`, `B = 0.000244`, `C = 19`, applied to the dial sample after the
defensive clamp to 4095.  The returned value is the PRR in kHz. -/
noncomputable def GetPRRvalue (dial : ℕ) : ℝ :=
  let A : ℝ := 584
  let B : ℝ := 244 / 1000000
  let C : ℝ := 19
  let DialValue : ℕ := clamp12 dial
  A ^ (B * (DialValue : ℝ)) + C

/-- `GetPwrLevel`: the linear map `Y = 0.031007 * X` applied to the power-sense
sample after the defensive clamp to 4095. -/
def GetPwrLevel {α : Type} [LinearOrderedField α] (input : ℕ) : α :=
  let InputValue : ℕ := clamp12 input
  31007 / 1000000 * (InputValue : α)

/-- `GetDutyValue`: the PRR-dependent linear duty map.  With
`minT = 100` ns, `maxT = 600` ns and `PeriodPRR = 1000000/PRR` ns, the slope is
`M = (maxDuty - minDuty) / 4095` and the intercept `C = minDuty`.  Note that the
source applies `M * DialValue + C` to the raw dial sample with no clamp (unlike
`GetPRRvalue` and `GetPwrLevel`). -/
def GetDutyValue {α : Type} [LinearOrderedField α] (PRR : α) (dial : ℕ) : α :=
  let minT : α := 100
  let maxT : α := 600
  let PeriodPRR : α := 1000000 / PRR
  let minDuty : α := (100 * minT) / PeriodPRR
  let maxDuty : α := (100 * maxT) / PeriodPRR
  let M : α := (maxDuty - minDuty) / 4095
  let C : α := minDuty
  M * (dial : α) + C

/-- `isUpdateNeeded`: add the current error `PRR - currentPRR` to the
integrator; when the result leaves the `±1.5` kHz window, reset the integrator,
record `PRR` as applied and signal `true`; otherwise keep the accumulated error
and signal `false`.  Returns the signal together with the updated statics. -/
def isUpdateNeeded {α : Type} [LinearOrderedField α] (st : FilterState α)
    (PRR : α) : Bool × FilterState α :=
  let errorThreshold : α := 3 / 2
  let currentError : α := PRR - st.currentPRR
  let integratedError : α := st.integratedError + currentError
  if errorThreshold < integratedError ∨ integratedError < -1 * errorThreshold then
    (true, { integratedError := 0, currentPRR := PRR })
  else
    (false, { integratedError := integratedError, currentPRR := st.currentPRR })

/-- The duty command written by `ConfigurePulseGenerator`:
`(uint16_t)((Duty * 40.95) + 0.5)`.  For the nonnegative sub-65536 values that
arise here the C cast truncates, i.e. takes the floor (`40.95 = 4095/100`). -/
def dutyCommand {α : Type} [LinearOrderedField α] [FloorRing α] (Duty : α) : ℤ :=
  ⌊Duty * (4095 / 100) + 1 / 2⌋

/-- What one call of `ConfigurePulseGenerator` writes to the laser pin: the
frequency reprogram `analogWriteFrequency(LaserPin, PRR*1000)` when the update
filter fired (`none` when the write was skipped), and the unconditional duty
write `analogWrite(LaserPin, (uint16_t)((Duty * 40.95) + 0.5))`. -/
structure LaserWrites (α : Type) where
  freqWrite : Option α
  dutyWrite : ℤ

/-- `ConfigurePulseGenerator`: reprogram the frequency only when
`isUpdateNeeded()` fires, write the duty command every time. -/
def ConfigurePulseGenerator {α : Type} [LinearOrderedField α] [FloorRing α]
    (st : FilterState α) (PRR Duty : α) : LaserWrites α × FilterState α :=
  let upd := isUpdateNeeded st PRR
  ({ freqWrite := if upd.1 then some (PRR * 1000) else none,
     dutyWrite := dutyCommand Duty }, upd.2)

/-- The fields printed by one call of `SendSerialUpdate`, in source order:
trigger source, PRR, Duty, pulse time `(1000000/PRR) * (Duty/100)` in ns,
power level, temperature alarm and e-stop readings. -/
structure SerialRecord (α : Type) where
  triggerExt : Bool
  prr : α
  duty : α
  pulseTimeNs : α
  pwrLvl : α
  tempAlarm : Bool
  estopActive : Bool

/-- `SendSerialUpdate`: the diagnostic line printed every tick, as data. -/
def SendSerialUpdate {α : Type} [LinearOrderedField α] (PRR Duty PwrLvl : α)
    (f : FaultState) : SerialRecord α :=
  { triggerExt := f.trigExternal
    prr := PRR
    duty := Duty
    pulseTimeNs := 1000000 / PRR * (Duty / 100)
    pwrLvl := PwrLvl
    tempAlarm := f.overTemp
    estopActive := f.estop }

/-- The four screens `UpdateLCD` can leave on the display: the e-stop message,
the over-temperature message, the "EXTERNAL" message, or the live values screen
showing `PRR + 0.049` and the pulse time `(1000000/PRR)*(Duty/100) + 0.049`. -/
inductive LcdScreen (α : Type)
  | estopScreen
  | temperatureScreen
  | externalScreen
  | valuesScreen (prrShown pulseTimeShown : α)

/-- `UpdateLCD`: e-stop is checked first (early return), then over-temperature
(early return), and only then the trigger-source selector chooses between the
live values and the "EXTERNAL" message. -/
def UpdateLCD {α : Type} [LinearOrderedField α] (f : FaultState) (PRR Duty : α) :
    LcdScreen α :=
  if f.estop then LcdScreen.estopScreen
  else if f.overTemp then LcdScreen.temperatureScreen
  else if !f.trigExternal then
    LcdScreen.valuesScreen (PRR + 49 / 1000)
      (1000000 / PRR * (Duty / 100) + 49 / 1000)
  else LcdScreen.externalScreen

/-- Everything one body of `loop()` (when the 250 ms Metro fires) produces:
the laser-pin writes, the serial line, the LCD screen and the filter statics. -/
structure TickOutput (α : Type) where
  laser : LaserWrites α
  serial : SerialRecord α
  lcd : LcdScreen α
  filterState : FilterState α

/-- One iteration of the body of `loop()`: read the three analog channels,
configure the pulse generator, then publish the serial and LCD output.  The
fault/selector pins enter only through `SendSerialUpdate` and `UpdateLCD`. -/
noncomputable def loopTick (st : FilterState ℝ) (prrRaw dutyRaw pwrRaw : ℕ)
    (f : FaultState) : TickOutput ℝ :=
  let PRR : ℝ := GetPRRvalue prrRaw
  let Duty : ℝ := GetDutyValue PRR dutyRaw
  let PwrLvl : ℝ := GetPwrLevel pwrRaw
  let cfg := ConfigurePulseGenerator st PRR Duty
  { laser := cfg.1
    serial := SendSerialUpdate PRR Duty PwrLvl f
    lcd := UpdateLCD f PRR Duty
    filterState := cfg.2 }

/-- The three operating modes of the spec's `DutyClamp` component. -/
inductive Mode
  | Off
  | Pulsed
  | ContinuousWave

/-- Modelled from the spec: the repository's source drives the hardware PWM
peripheral directly and contains no `classify` operation (the spec's `DutyClamp`
component is absent from the sketch).  Following §4.2 of the spec word for word:
`Duty > Dmax` gives ContinuousWave with zeroed timing, `Duty < Dmin` gives Off
with zeroed timing, otherwise Pulsed with `onTime = period * Duty/100` and
`offTime = period * (1 - Duty/100)` where `period = 1000/PRR`; boundary
equality falls in the `otherwise` branch, hence Pulsed. -/
def classify {α : Type} [LinearOrderedField α] (PRR Duty Dmin Dmax : α) :
    Mode × α × α :=
  if Dmax < Duty then (Mode.ContinuousWave, 0, 0)
  else if Duty < Dmin then (Mode.Off, 0, 0)
  else (Mode.Pulsed, 1000 / PRR * (Duty / 100), 1000 / PRR * (1 - Duty / 100))

/-- The duty mapping exactly as §4.1 of the spec words it: `minDutyPct =
100*minOnTime/period`, `maxDutyPct = 100*maxOnTime/period`, `slope =
(maxDutyPct - minDutyPct)/4095`, `intercept = minDutyPct`, result
`slope*raw + intercept`, with `minOnTime = 100` ns, `maxOnTime = 600` ns and
`period` the pulse period implied by the current PRR.  Kept separate from
`GetDutyValue` so the source's map can be compared against the spec's words. -/
def mapDuty_spec {α : Type} [LinearOrderedField α] (raw : ℕ) (PRR : α) : α :=
  let minOnTime : α := 100
  let maxOnTime : α := 600
  let period : α := 1000000 / PRR
  let minDutyPct : α := 100 * minOnTime / period
  let maxDutyPct : α := 100 * maxOnTime / period
  let slope : α := (maxDutyPct - minDutyPct) / 4095
  let intercept : α := minDutyPct
  slope * (raw : α) + intercept

/-- The requested PRR of the drift scenario of §8 of the spec: the request
grows by 0.5 kHz per tick starting from 0, so tick `k` requests `k/2` kHz. -/
def driftReq (k : ℕ) : ℚ := k / 2

/-- The filter statics after `k` ticks of the drift scenario (tick `k` feeds
`driftReq k` to `isUpdateNeeded`), starting from the zero-initialised state. -/
def driftState : ℕ → FilterState ℚ
  | 0 => { integratedError := 0, currentPRR := 0 }
  | k + 1 => (isUpdateNeeded (driftState k) (driftReq (k + 1))).2

/-- Whether the drift scenario's tick `k + 1` fires a hardware frequency
apply. -/
def driftApply (k : ℕ) : Bool :=
  (isUpdateNeeded (driftState k) (driftReq (k + 1))).1

/-- The serial line printed on the drift scenario's tick `k + 1` (duty, power
and fault pins held at the source's defaults: 5 %, 0 %, all lines LOW). -/
def driftSerial (k : ℕ) : SerialRecord ℚ :=
  SendSerialUpdate (driftReq (k + 1)) 5 0 ⟨false, false, false⟩

/-- The closed form of the drift scenario's filter statics: after `k` ticks the
integrator holds 0, 0.5 or 1.5 kHz according to `k % 3`, and the last applied
PRR is the request of the most recent firing tick, `(k - k % 3)/2`. -/
def driftExpected (k : ℕ) : FilterState ℚ :=
  { integratedError := if k % 3 = 0 then 0 else if k % 3 = 1 then 1 / 2 else 3 / 2
    currentPRR := ((k : ℚ) - ((k % 3 : ℕ) : ℚ)) / 2 }

/-! Helper lemmas shared by the claim theorems. -/

lemma clamp12_le (v : ℕ) : clamp12 v ≤ 4095 := by
  unfold clamp12; split <;> omega

lemma clamp12_mono {a b : ℕ} (h : a ≤ b) : clamp12 a ≤ clamp12 b := by
  unfold clamp12; split <;> split <;> omega

lemma clamp12_eq_of_gt {v : ℕ} (h : 4095 < v) : clamp12 v = 4095 := if_pos h

lemma clamp12_eq_of_le {v : ℕ} (h : v ≤ 4095) : clamp12 v = v := by
  unfold clamp12; split <;> omega

lemma one_le_prrExp (r : ℕ) :
    1 ≤ (584 : ℝ) ^ ((244 / 1000000 : ℝ) * (clamp12 r : ℝ)) := by
  have h0 : (584 : ℝ) ^ (0 : ℝ) ≤
      (584 : ℝ) ^ ((244 / 1000000 : ℝ) * (clamp12 r : ℝ)) :=
    Real.rpow_le_rpow_of_exponent_le (by norm_num) (by positivity)
  simpa [Real.rpow_zero] using h0

lemma prrExp_le (r : ℕ) :
    (584 : ℝ) ^ ((244 / 1000000 : ℝ) * (clamp12 r : ℝ)) ≤ 584 := by
  have hc : (clamp12 r : ℝ) ≤ 4095 := by exact_mod_cast clamp12_le r
  have he : (244 / 1000000 : ℝ) * (clamp12 r : ℝ) ≤ 1 := by nlinarith
  calc (584 : ℝ) ^ ((244 / 1000000 : ℝ) * (clamp12 r : ℝ))
      ≤ (584 : ℝ) ^ (1 : ℝ) :=
        Real.rpow_le_rpow_of_exponent_le (by norm_num) he
    _ = 584 := Real.rpow_one 584

lemma GetPRRvalue_ge (r : ℕ) : 20 ≤ GetPRRvalue r := by
  have h := one_le_prrExp r
  show 20 ≤ (584 : ℝ) ^ ((244 / 1000000 : ℝ) * (clamp12 r : ℝ)) + 19
  linarith

lemma GetPRRvalue_le (r : ℕ) : GetPRRvalue r ≤ 603 := by
  have h := prrExp_le r
  show (584 : ℝ) ^ ((244 / 1000000 : ℝ) * (clamp12 r : ℝ)) + 19 ≤ 603
  linarith

lemma GetDutyValue_eq {α : Type} [LinearOrderedField α] (PRR : α)
    (d : ℕ) : GetDutyValue PRR d = PRR * d / 81900 + PRR / 100 := by
  simp only [GetDutyValue]
  field_simp
  ring

lemma isUpdateNeeded_fire {α : Type} [LinearOrderedField α] (st : FilterState α)
    (req : α) (h : 3 / 2 < |st.integratedError + (req - st.currentPRR)|) :
    isUpdateNeeded st req = (true, { integratedError := 0, currentPRR := req }) := by
  simp only [isUpdateNeeded]
  rw [if_pos]
  rcases lt_abs.mp h with h' | h'
  · exact Or.inl h'
  · exact Or.inr (by linarith)

lemma isUpdateNeeded_skip {α : Type} [LinearOrderedField α] (st : FilterState α)
    (req : α) (h : |st.integratedError + (req - st.currentPRR)| ≤ 3 / 2) :
    isUpdateNeeded st req =
      (false, { integratedError := st.integratedError + (req - st.currentPRR),
                currentPRR := st.currentPRR }) := by
  obtain ⟨hlo, hhi⟩ := abs_le.mp h
  simp only [isUpdateNeeded]
  rw [if_neg]
  rintro (h' | h') <;> linarith

lemma FilterState.eq_of_fields {α : Type} {a b : FilterState α}
    (h1 : a.integratedError = b.integratedError)
    (h2 : a.currentPRR = b.currentPRR) : a = b := by
  cases a; cases b; cases h1; cases h2; rfl

lemma driftReq_succ (k : ℕ) : driftReq (k + 1) = ((k : ℚ) + 1) / 2 := by
  unfold driftReq; push_cast; ring

lemma driftExpected_mod0 {k : ℕ} (h : k % 3 = 0) :
    driftExpected k = { integratedError := 0, currentPRR := (k : ℚ) / 2 } := by
  simp [driftExpected, h]

lemma driftExpected_mod1 {k : ℕ} (h : k % 3 = 1) :
    driftExpected k =
      { integratedError := 1 / 2, currentPRR := ((k : ℚ) - 1) / 2 } := by
  simp [driftExpected, h]

lemma driftExpected_mod2 {k : ℕ} (h : k % 3 = 2) :
    driftExpected k =
      { integratedError := 3 / 2, currentPRR := ((k : ℚ) - 2) / 2 } := by
  simp [driftExpected, h]

lemma driftState_eq (k : ℕ) : driftState k = driftExpected k := by
  induction k with
  | zero => simp [driftState, driftExpected]
  | succ n ih =>
    simp only [driftState]
    rw [ih, driftReq_succ]
    rcases (by omega : n % 3 = 0 ∨ n % 3 = 1 ∨ n % 3 = 2) with h | h | h
    · have hle : |(0 : ℚ) + (((n : ℚ) + 1) / 2 - (n : ℚ) / 2)| ≤ 3 / 2 := by
        rw [show (0 : ℚ) + (((n : ℚ) + 1) / 2 - (n : ℚ) / 2) = 1 / 2 by ring,
          abs_le]
        constructor <;> norm_num
      rw [driftExpected_mod0 h, driftExpected_mod1 (by omega : (n + 1) % 3 = 1),
        isUpdateNeeded_skip { integratedError := 0, currentPRR := (n : ℚ) / 2 }
          (((n : ℚ) + 1) / 2) hle]
      dsimp only
      exact FilterState.eq_of_fields (by dsimp only; try push_cast; try ring)
        (by dsimp only; try push_cast; try ring)
    · have hle : |(1 / 2 : ℚ) + (((n : ℚ) + 1) / 2 - ((n : ℚ) - 1) / 2)| ≤ 3 / 2 := by
        rw [show (1 / 2 : ℚ) + (((n : ℚ) + 1) / 2 - ((n : ℚ) - 1) / 2) = 3 / 2 by
          ring, abs_le]
        constructor <;> norm_num
      rw [driftExpected_mod1 h, driftExpected_mod2 (by omega : (n + 1) % 3 = 2),
        isUpdateNeeded_skip
          { integratedError := 1 / 2, currentPRR := ((n : ℚ) - 1) / 2 }
          (((n : ℚ) + 1) / 2) hle]
      dsimp only
      exact FilterState.eq_of_fields (by dsimp only; try push_cast; try ring)
        (by dsimp only; try push_cast; try ring)
    · have hgt : 3 / 2 < |(3 / 2 : ℚ) + (((n : ℚ) + 1) / 2 - ((n : ℚ) - 2) / 2)| := by
        rw [show (3 / 2 : ℚ) + (((n : ℚ) + 1) / 2 - ((n : ℚ) - 2) / 2) = 3 by ring,
          abs_of_nonneg (by norm_num : (0 : ℚ) ≤ 3)]
        norm_num
      rw [driftExpected_mod2 h, driftExpected_mod0 (by omega : (n + 1) % 3 = 0),
        isUpdateNeeded_fire
          { integratedError := 3 / 2, currentPRR := ((n : ℚ) - 2) / 2 }
          (((n : ℚ) + 1) / 2) hgt]
      dsimp only
      exact FilterState.eq_of_fields (by dsimp only; try push_cast; try ring)
        (by dsimp only; try push_cast; try ring)

/-! The claim theorems. -/

/-- Claim C1: for every requested Duty and bounds with `Dmin ≤ Dmax`, `classify`
returns ContinuousWave with zeroed timing when `Duty > Dmax`, Off with zeroed
timing when `Duty < Dmin`, and otherwise (boundary equality included) Pulsed
with `onTime = period * Duty/100` and `offTime = period * (1 - Duty/100)` where
`period = 1000/PRR`. -/
theorem classify_mode_cases (PRR Duty Dmin Dmax : ℚ) (h : Dmin ≤ Dmax) :
    (Dmax < Duty → classify PRR Duty Dmin Dmax = (Mode.ContinuousWave, 0, 0)) ∧
    (Duty < Dmin → classify PRR Duty Dmin Dmax = (Mode.Off, 0, 0)) ∧
    (Dmin ≤ Duty → Duty ≤ Dmax →
      classify PRR Duty Dmin Dmax =
        (Mode.Pulsed, 1000 / PRR * (Duty / 100), 1000 / PRR * (1 - Duty / 100))) := by
  refine ⟨fun hcw => ?_, fun hoff => ?_, fun h1 h2 => ?_⟩
  · unfold classify
    rw [if_pos hcw]
  · unfold classify
    rw [if_neg (by linarith), if_pos hoff]
  · unfold classify
    rw [if_neg (not_lt.mpr h2), if_neg (not_lt.mpr h1)]

/-- Witness for C1 at the spec's Scenario-A-like boundary input: with
`Dmin = 15`, `Dmax = 85` and `Duty = 85` (boundary equality), classification is
Pulsed with the stated timing. -/
theorem classify_mode_cases_witness :
    classify (20 : ℚ) 85 15 85 =
      (Mode.Pulsed, 1000 / 20 * (85 / 100), 1000 / 20 * (1 - 85 / 100)) :=
  (classify_mode_cases 20 85 15 85 (by norm_num)).2.2 (by norm_num) (by norm_num)

/-- Counterexample to claim C2: the duty-dial channel does not clamp.  On the
out-of-range raw sample 4096 (with PRR 200 kHz), `GetDutyValue` returns a value
different from the one at the clamped sample 4095, so the linear map consumed
the unclamped raw value. -/
theorem duty_channel_unclamped_cex :
    GetDutyValue (200 : ℚ) 4096 ≠ GetDutyValue (200 : ℚ) 4095 := by
  rw [GetDutyValue_eq, GetDutyValue_eq]
  norm_num

/-- Claim C2 as amended: raw samples above 4095 are clamped to 4095 before the
transform on the PRR-dial and power-sense channels only; the duty-dial channel
applies its linear map to the raw sample unclamped. -/
theorem raw_clamping_per_channel (r : ℕ) (h : 4095 < r) :
    GetPRRvalue r = GetPRRvalue 4095 ∧
    (GetPwrLevel r : ℚ) = GetPwrLevel 4095 ∧
    ∀ PRR : ℚ, GetDutyValue PRR r = PRR * r / 81900 + PRR / 100 := by
  refine ⟨?_, ?_, fun PRR => GetDutyValue_eq PRR r⟩
  · show (584 : ℝ) ^ ((244 / 1000000 : ℝ) * (clamp12 r : ℝ)) + 19 =
      (584 : ℝ) ^ ((244 / 1000000 : ℝ) * (clamp12 4095 : ℝ)) + 19
    rw [clamp12_eq_of_gt h, clamp12_eq_of_le (le_refl 4095)]
  · show (31007 / 1000000 : ℚ) * (clamp12 r : ℚ) =
      (31007 / 1000000 : ℚ) * (clamp12 4095 : ℚ)
    rw [clamp12_eq_of_gt h, clamp12_eq_of_le (le_refl 4095)]

/-- Witness for the amended C2 at the concrete out-of-range sample 4096. -/
theorem raw_clamping_per_channel_witness :
    GetPRRvalue 4096 = GetPRRvalue 4095 ∧
    (GetPwrLevel 4096 : ℚ) = GetPwrLevel 4095 ∧
    ∀ PRR : ℚ, GetDutyValue PRR 4096 = PRR * 4096 / 81900 + PRR / 100 :=
  raw_clamping_per_channel 4096 (by norm_num)

/-- Claim C3: for every in-range duty-dial sample and strictly positive PRR,
`GetDutyValue` returns `slope*raw + intercept` with `minDutyPct =
100*minOnTime/period`, `maxDutyPct = 100*maxOnTime/period`, `slope =
(maxDutyPct - minDutyPct)/4095`, `intercept = minDutyPct`, `period` the pulse
period implied by the current PRR, `minOnTime = 100` ns, `maxOnTime = 600` ns
(the spec-side map is `mapDuty_spec`); equivalently `PRR*raw/81900 + PRR/100`. -/
theorem duty_map_matches_spec (PRR : ℚ) (raw : ℕ) (h : 0 < PRR)
    (hraw : raw ≤ 4095) :
    GetDutyValue PRR raw = mapDuty_spec raw PRR ∧
    GetDutyValue PRR raw = PRR * raw / 81900 + PRR / 100 :=
  ⟨rfl, GetDutyValue_eq PRR raw⟩

/-- Witness for C3 at PRR = 200 kHz and raw sample 4095. -/
theorem duty_map_matches_spec_witness :
    GetDutyValue (200 : ℚ) 4095 = mapDuty_spec 4095 200 ∧
    GetDutyValue (200 : ℚ) 4095 = 200 * 4095 / 81900 + 200 / 100 :=
  duty_map_matches_spec 200 4095 (by norm_num) (by norm_num)

/-- Claim C6: for every raw PRR-dial sample the PRR mapping output is bounded
below by the strictly positive floor 20 kHz, hence nonzero, so the period
computation `1000000/PRR` shared by the duty mapping, the serial output and the
display is a division by a nonzero number and yields a positive period. -/
theorem prr_floor_positive (r : ℕ) :
    20 ≤ GetPRRvalue r ∧ GetPRRvalue r ≠ 0 ∧ 0 < 1000000 / GetPRRvalue r := by
  have h := GetPRRvalue_ge r
  exact ⟨h, by linarith, div_pos (by norm_num) (by linarith)⟩

/-- Claim C8: both calibration mappings are monotonic non-decreasing over the
clamped 12-bit input domain: for raw samples `r1 ≤ r2 ≤ 4095`,
`GetPRRvalue r1 ≤ GetPRRvalue r2` and `GetPwrLevel r1 ≤ GetPwrLevel r2`. -/
theorem calibration_maps_monotone (r1 r2 : ℕ) (h12 : r1 ≤ r2) (h2 : r2 ≤ 4095) :
    GetPRRvalue r1 ≤ GetPRRvalue r2 ∧ (GetPwrLevel r1 : ℚ) ≤ GetPwrLevel r2 := by
  have hc : clamp12 r1 ≤ clamp12 r2 := clamp12_mono h12
  constructor
  · show (584 : ℝ) ^ ((244 / 1000000 : ℝ) * (clamp12 r1 : ℝ)) + 19 ≤
      (584 : ℝ) ^ ((244 / 1000000 : ℝ) * (clamp12 r2 : ℝ)) + 19
    have hcr : (clamp12 r1 : ℝ) ≤ (clamp12 r2 : ℝ) := by exact_mod_cast hc
    have hexp := Real.rpow_le_rpow_of_exponent_le
      (show (1 : ℝ) ≤ 584 by norm_num)
      (show (244 / 1000000 : ℝ) * (clamp12 r1 : ℝ) ≤
        (244 / 1000000 : ℝ) * (clamp12 r2 : ℝ) by nlinarith)
    linarith
  · show (31007 / 1000000 : ℚ) * (clamp12 r1 : ℚ) ≤
      (31007 / 1000000 : ℚ) * (clamp12 r2 : ℚ)
    have hcr : (clamp12 r1 : ℚ) ≤ (clamp12 r2 : ℚ) := by exact_mod_cast hc
    nlinarith

/-- Witness for C8 at the concrete samples 0 ≤ 4095. -/
theorem calibration_maps_monotone_witness :
    GetPRRvalue 0 ≤ GetPRRvalue 4095 ∧ (GetPwrLevel 0 : ℚ) ≤ GetPwrLevel 4095 :=
  calibration_maps_monotone 0 4095 (by norm_num) (by norm_num)

/-- Claim C10: the fault display has fixed precedence.  If the e-stop line is
active the LCD shows the e-stop screen regardless of the other lines; otherwise
an active over-temperature line shows the temperature screen regardless of the
trigger-source line; only with both faults clear does the trigger-source line
choose between the "EXTERNAL" screen and the live PRR/pulse-time values. -/
theorem lcd_fault_precedence (f : FaultState) (PRR Duty : ℚ) :
    (f.estop = true → UpdateLCD f PRR Duty = LcdScreen.estopScreen) ∧
    (f.estop = false → f.overTemp = true →
      UpdateLCD f PRR Duty = LcdScreen.temperatureScreen) ∧
    (f.estop = false → f.overTemp = false →
      UpdateLCD f PRR Duty =
        if f.trigExternal then LcdScreen.externalScreen
        else LcdScreen.valuesScreen (PRR + 49 / 1000)
          (1000000 / PRR * (Duty / 100) + 49 / 1000)) := by
  obtain ⟨t, e, x⟩ := f
  cases t <;> cases e <;> cases x <;>
    refine ⟨fun h1 => ?_, fun h1 h2 => ?_, fun h1 h2 => ?_⟩ <;>
    simp_all [UpdateLCD]

/-- Claim C4: each tick `isUpdateNeeded` adds `requestedPRR - currentPRR` to
the integrator; exactly when the updated integrator exceeds 1.5 kHz in absolute
value it signals apply-now, records the requested PRR as applied and resets the
integrator to zero, and otherwise signals no-change leaving the applied PRR
untouched.  From the zero-initialised statics, the first tick fires for every
requested PRR the program produces (every `GetPRRvalue` output, ≥ 20 kHz). -/
theorem update_filter_step (st : FilterState ℝ) (req : ℝ) :
    (isUpdateNeeded st req =
      if 3 / 2 < |st.integratedError + (req - st.currentPRR)| then
        (true, { integratedError := 0, currentPRR := req })
      else
        (false, { integratedError := st.integratedError + (req - st.currentPRR),
                  currentPRR := st.currentPRR })) ∧
    ∀ raw : ℕ,
      (isUpdateNeeded ({ integratedError := 0, currentPRR := 0 } : FilterState ℝ)
        (GetPRRvalue raw)).1 = true := by
  constructor
  · by_cases h : 3 / 2 < |st.integratedError + (req - st.currentPRR)|
    · rw [if_pos h, isUpdateNeeded_fire st req h]
    · rw [if_neg h, isUpdateNeeded_skip st req (not_lt.mp h)]
  · intro raw
    have h20 := GetPRRvalue_ge raw
    have habs : 3 / 2 < |(0 : ℝ) + (GetPRRvalue raw - 0)| := by
      rw [show (0 : ℝ) + (GetPRRvalue raw - 0) = GetPRRvalue raw by ring,
        abs_of_nonneg (by linarith)]
      linarith
    rw [isUpdateNeeded_fire
      ({ integratedError := 0, currentPRR := 0 } : FilterState ℝ)
      (GetPRRvalue raw) habs]

/-- Claim C5: in the drift scenario (threshold 1.5 kHz, requested PRR growing
by 0.5 kHz per tick from 0) the hardware frequency apply fires exactly on every
3rd tick, while the serial diagnostic record of every tick carries the live
requested PRR, also on ticks with no hardware apply. -/
theorem drift_scenario (k : ℕ) :
    (driftApply k = true ↔ (k + 1) % 3 = 0) ∧
    (driftSerial k).prr = driftReq (k + 1) := by
  refine ⟨?_, rfl⟩
  unfold driftApply
  rw [driftState_eq, driftReq_succ]
  rcases (by omega : k % 3 = 0 ∨ k % 3 = 1 ∨ k % 3 = 2) with h | h | h
  · have hle : |(0 : ℚ) + (((k : ℚ) + 1) / 2 - (k : ℚ) / 2)| ≤ 3 / 2 := by
      rw [show (0 : ℚ) + (((k : ℚ) + 1) / 2 - (k : ℚ) / 2) = 1 / 2 by ring, abs_le]
      constructor <;> norm_num
    rw [driftExpected_mod0 h,
      isUpdateNeeded_skip { integratedError := 0, currentPRR := (k : ℚ) / 2 }
        (((k : ℚ) + 1) / 2) hle]
    simp
    omega
  · have hle : |(1 / 2 : ℚ) + (((k : ℚ) + 1) / 2 - ((k : ℚ) - 1) / 2)| ≤ 3 / 2 := by
      rw [show (1 / 2 : ℚ) + (((k : ℚ) + 1) / 2 - ((k : ℚ) - 1) / 2) = 3 / 2 by
        ring, abs_le]
      constructor <;> norm_num
    rw [driftExpected_mod1 h,
      isUpdateNeeded_skip
        { integratedError := 1 / 2, currentPRR := ((k : ℚ) - 1) / 2 }
        (((k : ℚ) + 1) / 2) hle]
    simp
    omega
  · have hgt : 3 / 2 < |(3 / 2 : ℚ) + (((k : ℚ) + 1) / 2 - ((k : ℚ) - 2) / 2)| := by
      rw [show (3 / 2 : ℚ) + (((k : ℚ) + 1) / 2 - ((k : ℚ) - 2) / 2) = 3 by ring,
        abs_of_nonneg (by norm_num : (0 : ℚ) ≤ 3)]
      norm_num
    rw [driftExpected_mod2 h,
      isUpdateNeeded_fire
        { integratedError := 3 / 2, currentPRR := ((k : ℚ) - 2) / 2 }
        (((k : ℚ) + 1) / 2) hgt]
    simp
    omega

/-- Claim C7: two loop ticks that agree on the analog samples and the filter
statics but differ arbitrarily in the fault/selector lines write exactly the
same values to the laser output line (frequency reprogram and duty write) and
leave the same filter statics; the fault lines reach only the serial and LCD
output. -/
theorem fault_lines_never_reach_laser (st : FilterState ℝ) (p d w : ℕ)
    (f g : FaultState) :
    (loopTick st p d w f).laser = (loopTick st p d w g).laser ∧
    (loopTick st p d w f).filterState = (loopTick st p d w g).filterState :=
  ⟨rfl, rfl⟩

/-- Claim C9: for in-range raw samples on the PRR and duty dials, the duty
command `(uint16_t)((Duty * 40.95) + 0.5)` written by `ConfigurePulseGenerator`
is nonnegative and never exceeds the peripheral's 12-bit maximum 4095. -/
theorem duty_command_within_12bit (p d : ℕ) (hp : p ≤ 4095) (hd : d ≤ 4095) :
    0 ≤ dutyCommand (GetDutyValue (GetPRRvalue p) d) ∧
    dutyCommand (GetDutyValue (GetPRRvalue p) d) ≤ 4095 := by
  have h20 : 20 ≤ GetPRRvalue p := GetPRRvalue_ge p
  have h603 : GetPRRvalue p ≤ 603 := GetPRRvalue_le p
  have hdle : (d : ℝ) ≤ 4095 := by exact_mod_cast hd
  have hd0 : (0 : ℝ) ≤ (d : ℝ) := Nat.cast_nonneg d
  have hEq := GetDutyValue_eq (GetPRRvalue p) d
  have hmul : GetPRRvalue p * (d : ℝ) ≤ 603 * 4095 :=
    mul_le_mul h603 hdle hd0 (by norm_num)
  have hmul0 : 0 ≤ GetPRRvalue p * (d : ℝ) :=
    mul_nonneg (by linarith) hd0
  have hub : GetDutyValue (GetPRRvalue p) d ≤ 603 * 4095 / 81900 + 603 / 100 := by
    rw [hEq]
    have h1 : GetPRRvalue p * (d : ℝ) / 81900 ≤ 603 * 4095 / 81900 := by
      linarith
    have h2 : GetPRRvalue p / 100 ≤ 603 / 100 := by linarith
    linarith
  have hlb : 0 ≤ GetDutyValue (GetPRRvalue p) d := by
    rw [hEq]
    have h1 : (0 : ℝ) ≤ GetPRRvalue p * (d : ℝ) / 81900 := by linarith
    have h2 : (0 : ℝ) ≤ GetPRRvalue p / 100 := by linarith
    linarith
  constructor
  · unfold dutyCommand
    refine Int.le_floor.mpr ?_
    push_cast
    nlinarith
  · unfold dutyCommand
    have hlt : GetDutyValue (GetPRRvalue p) d * (4095 / 100) + 1 / 2 <
        ((4096 : ℤ) : ℝ) := by
      push_cast
      nlinarith
    have := Int.floor_lt.mpr hlt
    omega

/-- Witness for C9 at the concrete raw samples `p = 4095`, `d = 4095` (both
dials fully clockwise, the worst case for the duty command). -/
theorem duty_command_within_12bit_witness :
    0 ≤ dutyCommand (GetDutyValue (GetPRRvalue 4095) 4095) ∧
    dutyCommand (GetDutyValue (GetPRRvalue 4095) 4095) ≤ 4095 :=
  duty_command_within_12bit 4095 4095 (by norm_num) (by norm_num)

end TeensyController
